import Mathlib

/-!
# Dev radar mobile client: the `Main` screen

A shallow embedding of `mobile/src/pages/Main.js`.

* The three `useState` cells (`devs`, `currentRegion`, `techs`) form the record `State`.
  A handler created by a render reads the cells of that render, so every handler takes the
  `State` of its render as an argument.
* Calls that leave the component (`api.get`, `connect`, `disconnect`, the state setters, the
  location functions) are recorded, in program order, in a list of `Effect`s.
* What the outside world answers (`api.get`, the permission prompt, the position fix) is an
  argument of the handler that awaits it.
* JavaScript numbers are only stored and passed on by this file, never computed with; they are
  modelled by rationals, the literal `0.04` by `4 / 100`.
* The callback handed to `subscribeToNewDevs` keeps the `devs` of the render that created it.
  `Screen` records the lists closed over by the callbacks registered so far, and a pushed
  record is appended to the list of the callback that receives it.
* Destructuring `null` throws a `TypeError`; a rejected awaited promise rethrows its reason.
  Both end the handler and are reported in `Result.failure`.
-/

namespace DevRadar

/-! ## Data -/

/-- The GeoJSON point stored on a dev: `coordinates` is `[longitude, latitude]`. -/
structure Location where
  coordinates : List ℚ
  deriving DecidableEq, Repr

/-- A record of the directory, with the fields that `Main` reads. -/
structure Dev where
  _id : String
  name : String
  bio : String
  avatar_url : String
  github_username : String
  techs : List String
  location : Location
  deriving DecidableEq, Repr

/-- The map viewport handled by `MapView`: a centre and an extent. -/
structure Region where
  latitude : ℚ
  longitude : ℚ
  latitudeDelta : ℚ
  longitudeDelta : ℚ
  deriving DecidableEq, Repr

/-- The `coords` object of a position fix (only the fields that are destructured). -/
structure Coords where
  latitude : ℚ
  longitude : ℚ
  deriving DecidableEq, Repr

/-- The resolved value of `getCurrentPositionAsync`. -/
structure Position where
  coords : Coords
  deriving DecidableEq, Repr

/-- The `params` object of the `GET /search` request. -/
structure SearchParams where
  latitude : ℚ
  longitude : ℚ
  techs : String
  deriving DecidableEq, Repr

/-- The body of a search response. -/
structure ResponseData where
  devs : List Dev
  deriving DecidableEq, Repr

/-- The resolved value of `api.get`. -/
structure Response where
  data : ResponseData
  deriving DecidableEq, Repr

/-- The HTTP client: `get url config` resolves with a response or rejects with a reason. -/
structure Api where
  get : String → SearchParams → Except String Response

/-- The component state: one field per `useState` cell. -/
structure State where
  devs : List Dev
  currentRegion : Option Region
  techs : String
  deriving DecidableEq, Repr

/-- The state of the first render: `useState([])`, `useState(null)`, `useState('')`. -/
def State.init : State :=
  { devs := [], currentRegion := none, techs := "" }

/-- A call that leaves the component, as seen from outside. -/
inductive Effect where
  | requestPermissionsAsync
  | getCurrentPositionAsync (enableHighAccuracy : Bool)
  | setCurrentRegion (region : Region)
  | subscribeToNewDevs
  | get (url : String) (params : SearchParams)
  | setDevs (devs : List Dev)
  | setTechs (techs : String)
  | disconnect
  | connect (latitude longitude : ℚ) (techs : String)
  deriving DecidableEq, Repr

/-- Why a handler stopped before its last statement. -/
inductive Failure where
  | typeError
  | rejected (reason : String)
  deriving DecidableEq, Repr

/-- What running a handler gives: the next state, the calls made, and the exception if any. -/
structure Result where
  state : State
  effects : List Effect
  failure : Option Failure
  deriving DecidableEq, Repr

/-! ## Handlers -/

/-- The body of `loadInitialPosition`, run once by the mount effect. -/
def loadInitialPosition (s : State) (granted : Bool) (fix : Except String Position) : Result :=
  if granted then
    match fix with
    | .error reason =>
      { state := s
        effects := [.requestPermissionsAsync, .getCurrentPositionAsync true]
        failure := some (.rejected reason) }
    | .ok position =>
      let region : Region :=
        { latitude := position.coords.latitude
          longitude := position.coords.longitude
          latitudeDelta := 4 / 100
          longitudeDelta := 4 / 100 }
      { state := { s with currentRegion := some region }
        effects := [.requestPermissionsAsync, .getCurrentPositionAsync true,
          .setCurrentRegion region]
        failure := none }
  else
    { state := s, effects := [.requestPermissionsAsync], failure := none }

/-- The arrow function handed to `subscribeToNewDevs` by the render whose list is `devs`:
`dev => setDevs([...devs, dev])`. It returns the argument of `setDevs`. -/
def newDevCallback (devs : List Dev) (dev : Dev) : List Dev :=
  devs ++ [dev]

/-- The effect `useEffect(() => subscribeToNewDevs(...), [devs])`. -/
def subscribeEffect (s : State) : Result :=
  { state := s, effects := [.subscribeToNewDevs], failure := none }

/-- A pushed record reaching the callback registered by the render of state `s`. -/
def onNewDev (s : State) (dev : Dev) : Result :=
  { state := { s with devs := newDevCallback s.devs dev }
    effects := [.setDevs (newDevCallback s.devs dev)]
    failure := none }

/-- The function `setupWebsocket` of the render of state `s`. -/
def setupWebsocket (s : State) : Result :=
  match s.currentRegion with
  | none => { state := s, effects := [.disconnect], failure := some .typeError }
  | some region =>
    { state := s
      effects := [.disconnect, .connect region.latitude region.longitude s.techs]
      failure := none }

/-- The function `loadDevs` of the render of state `s`. -/
def loadDevs (api : Api) (s : State) : Result :=
  match s.currentRegion with
  | none => { state := s, effects := [], failure := some .typeError }
  | some region =>
    let params : SearchParams :=
      { latitude := region.latitude, longitude := region.longitude, techs := s.techs }
    match api.get "/search" params with
    | .error reason =>
      { state := s, effects := [.get "/search" params], failure := some (.rejected reason) }
    | .ok response =>
      let ws := setupWebsocket s
      { state := { s with devs := response.data.devs }
        effects := [.get "/search" params, .setDevs response.data.devs] ++ ws.effects
        failure := ws.failure }

/-- The function `handleRegionChanged`. -/
def handleRegionChanged (s : State) (region : Region) : Result :=
  { state := { s with currentRegion := some region }
    effects := [.setCurrentRegion region]
    failure := none }

/-- The handler `onChangeText={setTechs}` of the search input. -/
def onChangeText (s : State) (text : String) : Result :=
  { state := { s with techs := text }, effects := [.setTechs text], failure := none }

/-! ## Render -/

/-- The `coordinate` prop of a marker; a missing array entry is `none`. -/
structure MarkerCoordinate where
  longitude : Option ℚ
  latitude : Option ℚ
  deriving DecidableEq, Repr

/-- The callout of a marker: the three texts and the target of its `onPress`. -/
structure CalloutView where
  navigateTo : String
  github_username : String
  devName : String
  devBio : String
  devTechs : String
  deriving DecidableEq, Repr

/-- One `<Marker>` element. -/
structure MarkerView where
  key : String
  coordinate : MarkerCoordinate
  imageUri : String
  callout : CalloutView
  deriving DecidableEq, Repr

/-- The element tree that `Main` returns when it renders something. -/
structure View where
  initialRegion : Region
  markers : List MarkerView
  searchValue : String
  deriving DecidableEq, Repr

/-- The body of `devs.map(dev => <Marker ...>)`. -/
def renderMarker (dev : Dev) : MarkerView :=
  { key := dev._id
    coordinate :=
      { longitude := dev.location.coordinates[0]?
        latitude := dev.location.coordinates[1]? }
    imageUri := dev.avatar_url
    callout :=
      { navigateTo := "Profile"
        github_username := dev.github_username
        devName := dev.name
        devBio := dev.bio
        devTechs := String.intercalate ", " dev.techs } }

/-- The return value of the component `Main` for the state `s`; `none` is `return null`. -/
def Main (s : State) : Option View :=
  match s.currentRegion with
  | none => none
  | some region =>
    some
      { initialRegion := region
        markers := s.devs.map renderMarker
        searchValue := s.techs }

/-! ## Events -/

/-- What can happen to a mounted `Main`. -/
inductive Event where
  | mounted (granted : Bool) (fix : Except String Position)
  | devsChanged
  | newDev (dev : Dev)
  | regionChangeComplete (region : Region)
  | changeText (text : String)
  | pressLoad

/-- An event needs the element that carries its handler: the map, the input and the button
exist only when `Main` renders something; the two effects run after every render. -/
def Event.enabled (s : State) : Event → Bool
  | .mounted _ _ => true
  | .devsChanged => true
  | .newDev _ => true
  | .regionChangeComplete _ => (Main s).isSome
  | .changeText _ => (Main s).isSome
  | .pressLoad => (Main s).isSome

/-- The handler that an event runs, in the render of state `s`. -/
def handle (api : Api) (s : State) : Event → Result
  | .mounted granted fix => loadInitialPosition s granted fix
  | .devsChanged => subscribeEffect s
  | .newDev dev => onNewDev s dev
  | .regionChangeComplete region => handleRegionChanged s region
  | .changeText text => onChangeText s text
  | .pressLoad => loadDevs api s

/-- The states that `Main` can be in, starting from the first render. The server may answer
each search differently, so every step brings its own `api`. -/
inductive Reachable : State → Prop where
  | init : Reachable State.init
  | step (api : Api) (s : State) (e : Event) : Reachable s → e.enabled s = true →
      Reachable (handle api s e).state

/-- The server of one search: it resolves with `response` whatever is asked. -/
def answering (response : Response) : Api :=
  { get := fun _ _ => .ok response }

/-- The identifiers of a list of devs, in list order (the marker keys). -/
def ids (devs : List Dev) : List String :=
  devs.map fun dev => dev._id

/-- The mounted screen together with its subscription: the state cells, and the lists that
the callbacks handed to `subscribeToNewDevs` so far closed over, oldest first. A callback
keeps the `devs` of the render that created it, whatever the cells become afterwards. The
module `services/socket` is not among the sources: whether a later `subscribeToNewDevs`
replaces the earlier callback or adds to it is left open, so all of them are kept. -/
structure Screen where
  state : State
  callbacks : List (List Dev)
  deriving DecidableEq, Repr

/-- The screen of the first render with the given region and filter text: an empty list and
no callback registered yet. -/
def Screen.fresh (region : Option Region) (techs : String) : Screen :=
  { state := { devs := [], currentRegion := region, techs := techs }, callbacks := [] }

/-- What drives a mounted screen. `subscribe` is a run of the effect
`useEffect(() => subscribeToNewDevs(...), [devs])`; `push k dev` is the arrival of `dev` at
the callback registered by the `k`-th run of that effect. -/
inductive Input where
  | mounted (granted : Bool) (fix : Except String Position)
  | regionChangeComplete (region : Region)
  | changeText (text : String)
  | pressLoad (api : Api)
  | subscribe
  | push (k : Nat) (dev : Dev)

/-- One input applied to the screen. The handlers of the current render run on the current
cells; a pushed record runs `dev => setDevs([...devs, dev])` on the list that its callback
closed over, and reaches nothing when no such callback was registered. -/
def Screen.step (screen : Screen) : Input → Screen
  | .mounted granted fix =>
    { screen with state := (loadInitialPosition screen.state granted fix).state }
  | .regionChangeComplete region =>
    { screen with state := (handleRegionChanged screen.state region).state }
  | .changeText text =>
    { screen with state := (onChangeText screen.state text).state }
  | .pressLoad api =>
    { screen with state := (loadDevs api screen.state).state }
  | .subscribe =>
    { screen with callbacks := screen.callbacks ++ [screen.state.devs] }
  | .push k dev =>
    match screen.callbacks[k]? with
    | none => screen
    | some closedOver =>
      { screen with state := { screen.state with devs := newDevCallback closedOver dev } }

/-- The screen after a run of inputs, oldest first. -/
def feed (screen : Screen) : List Input → Screen
  | [] => screen
  | input :: rest => feed (screen.step input) rest

/-- A pushed record is new to the list that the callback receiving it closed over. -/
def FreshFor (callbacks : List (List Dev)) (k : Nat) (dev : Dev) : Prop :=
  match callbacks[k]? with
  | none => True
  | some closedOver => dev._id ∉ ids closedOver

instance FreshFor.decidable (callbacks : List (List Dev)) (k : Nat) (dev : Dev) :
    Decidable (FreshFor callbacks k dev) := by
  unfold FreshFor
  cases callbacks[k]? <;> exact inferInstance

/-- Every pushed record of the run is new to the list it is appended to. -/
def FreshPushes (screen : Screen) : List Input → Prop
  | [] => True
  | .push k dev :: rest =>
    FreshFor screen.callbacks k dev ∧ FreshPushes (screen.step (.push k dev)) rest
  | input :: rest => FreshPushes (screen.step input) rest

instance FreshPushes.decidable :
    ∀ (screen : Screen) (run : List Input), Decidable (FreshPushes screen run)
  | _, [] => isTrue trivial
  | screen, .push k dev :: rest =>
    @instDecidableAnd _ _ _ (FreshPushes.decidable (screen.step (.push k dev)) rest)
  | screen, .mounted granted fix :: rest =>
    FreshPushes.decidable (screen.step (.mounted granted fix)) rest
  | screen, .regionChangeComplete region :: rest =>
    FreshPushes.decidable (screen.step (.regionChangeComplete region)) rest
  | screen, .changeText text :: rest =>
    FreshPushes.decidable (screen.step (.changeText text)) rest
  | screen, .pressLoad api :: rest =>
    FreshPushes.decidable (screen.step (.pressLoad api)) rest
  | screen, .subscribe :: rest =>
    FreshPushes.decidable (screen.step .subscribe) rest

/-- Every search of the run that resolves does so with a list free of duplicate `_id`s. -/
def CleanSearches (run : List Input) : Prop :=
  ∀ api, Input.pressLoad api ∈ run →
    ∀ url params response, api.get url params = .ok response → (ids response.data.devs).Nodup

/-- The `GET` requests of a trace, in order. -/
def requests : List Effect → List (String × SearchParams)
  | [] => []
  | .get url params :: rest => (url, params) :: requests rest
  | _ :: rest => requests rest

/-- Every `disconnect` of a trace is directly followed by a `connect`. -/
def DisconnectThenConnect (effects : List Effect) : Prop :=
  ∀ i, effects[i]? = some Effect.disconnect →
    ∃ latitude longitude techs, effects[i + 1]? = some (Effect.connect latitude longitude techs)

/-! ## Sample data -/

/-- A dev located at longitude 2, latitude 1. -/
def sampleDev : Dev :=
  { _id := "a1"
    name := "Ana"
    bio := "maps"
    avatar_url := "ana.png"
    github_username := "ana"
    techs := ["React", "Node"]
    location := { coordinates := [2, 1] } }

/-- A second dev, with another identifier. -/
def otherDev : Dev :=
  { _id := "b2"
    name := "Bia"
    bio := "servers"
    avatar_url := "bia.png"
    github_username := "bia"
    techs := ["Go"]
    location := { coordinates := [2, 1] } }

/-- A viewport centred at latitude 1, longitude 2. -/
def sampleRegion : Region :=
  { latitude := 1, longitude := 2, latitudeDelta := 4 / 100, longitudeDelta := 4 / 100 }

/-- The same centre as `sampleRegion`, twice the extent. -/
def wideRegion : Region :=
  { latitude := 1, longitude := 2, latitudeDelta := 8 / 100, longitudeDelta := 8 / 100 }

/-- A rendered screen with an empty list. -/
def sampleState : State :=
  { devs := [], currentRegion := some sampleRegion, techs := "React" }

/-- The same screen as `sampleState` after zooming out. -/
def wideState : State :=
  { devs := [], currentRegion := some wideRegion, techs := "React" }

/-- A search response holding `sampleDev` alone. -/
def sampleResponse : Response :=
  { data := { devs := [sampleDev] } }

/-- A server that rejects every request. -/
def offline : Api :=
  { get := fun _ _ => .error "Network Error" }

/-- The state after the mount effect got the permission and the fix (1, 2). -/
def mountedState : State :=
  (handle offline State.init
    (.mounted true (.ok { coords := { latitude := 1, longitude := 2 } }))).state

/-- The run of a screen that is mounted, subscribes, searches and finds `sampleDev`,
subscribes again with the found list, and is then pushed `dev` on that last callback. -/
def searchThenPush (dev : Dev) : List Input :=
  [.mounted true (.ok { coords := { latitude := 1, longitude := 2 } }), .subscribe,
    .pressLoad (answering sampleResponse), .subscribe, .push 1 dev]

/-! ## Unfolding lemmas -/

theorem loadDevs_of_null (api : Api) (s : State) (hnull : s.currentRegion = none) :
    loadDevs api s = { state := s, effects := [], failure := some .typeError } := by
  simp [loadDevs, hnull]

theorem loadDevs_of_rejected (api : Api) (s : State) (region : Region) (reason : String)
    (hregion : s.currentRegion = some region)
    (hrejected : api.get "/search"
      { latitude := region.latitude, longitude := region.longitude, techs := s.techs }
        = .error reason) :
    loadDevs api s =
      { state := s
        effects := [.get "/search"
          { latitude := region.latitude, longitude := region.longitude, techs := s.techs }]
        failure := some (.rejected reason) } := by
  simp [loadDevs, hregion, hrejected]

theorem loadDevs_of_resolved (api : Api) (s : State) (region : Region) (response : Response)
    (hregion : s.currentRegion = some region)
    (hresolved : api.get "/search"
      { latitude := region.latitude, longitude := region.longitude, techs := s.techs }
        = .ok response) :
    loadDevs api s =
      { state := { s with devs := response.data.devs }
        effects := [.get "/search"
            { latitude := region.latitude, longitude := region.longitude, techs := s.techs },
          .setDevs response.data.devs, .disconnect,
          .connect region.latitude region.longitude s.techs]
        failure := none } := by
  simp [loadDevs, setupWebsocket, hregion, hresolved]

/-- A call of `loadDevs` that ends without exception had a region and a resolved search. -/
theorem loadDevs_success_inv (api : Api) (s : State) (hdone : (loadDevs api s).failure = none) :
    ∃ region response, s.currentRegion = some region ∧
      api.get "/search"
        { latitude := region.latitude, longitude := region.longitude, techs := s.techs }
          = .ok response := by
  cases hregion : s.currentRegion with
  | none => simp [loadDevs_of_null api s hregion] at hdone
  | some region =>
    cases hget : api.get "/search"
        { latitude := region.latitude, longitude := region.longitude, techs := s.techs } with
    | error reason => simp [loadDevs_of_rejected api s region reason hregion hget] at hdone
    | ok response => exact ⟨region, response, rfl, hget⟩

/-! ## Search and subscription -/

/-- C1: a `loadDevs` call that completes subscribes to what it searched. The current region
is non-null, the trace holds one `GET /search` whose params are the latitude and longitude of
that region and the filter text, it holds a `connect`, and every `connect` of the trace
carries exactly the latitude, longitude and techs of those params. -/
theorem loadDevs_connects_to_searched (api : Api) (s : State)
    (hdone : (loadDevs api s).failure = none) :
    ∃ region params,
      s.currentRegion = some region ∧
      params = { latitude := region.latitude, longitude := region.longitude, techs := s.techs } ∧
      requests (loadDevs api s).effects = [("/search", params)] ∧
      Effect.connect params.latitude params.longitude params.techs ∈ (loadDevs api s).effects ∧
      ∀ latitude longitude techs,
        Effect.connect latitude longitude techs ∈ (loadDevs api s).effects →
          latitude = params.latitude ∧ longitude = params.longitude ∧ techs = params.techs := by
  obtain ⟨region, response, hregion, hget⟩ := loadDevs_success_inv api s hdone
  refine ⟨region, _, hregion, rfl, ?_, ?_, ?_⟩
  · rw [loadDevs_of_resolved api s region response hregion hget]
    rfl
  · rw [loadDevs_of_resolved api s region response hregion hget]
    simp
  · intro latitude longitude techs hmem
    rw [loadDevs_of_resolved api s region response hregion hget] at hmem
    simpa using hmem

/-- C2: a `loadDevs` call whose search succeeds makes exactly four calls, in this order:
`GET /search`, `setDevs`, `disconnect`, `connect`; and in the trace of every handler of
`Main`, whatever the state and the event, each `disconnect` is directly followed by a
`connect`. -/
theorem loadDevs_disconnect_then_connect (api : Api) (s : State)
    (hdone : (loadDevs api s).failure = none) :
    (∃ params devs latitude longitude techs,
      (loadDevs api s).effects =
        [.get "/search" params, .setDevs devs, .disconnect,
          .connect latitude longitude techs]) ∧
    ∀ (api2 : Api) (s2 : State) (e : Event), DisconnectThenConnect (handle api2 s2 e).effects := by
  constructor
  · obtain ⟨region, response, hregion, hget⟩ := loadDevs_success_inv api s hdone
    exact ⟨_, _, _, _, _, congrArg Result.effects
      (loadDevs_of_resolved api s region response hregion hget)⟩
  · intro api2 s2 e i hi
    cases e with
    | mounted granted fix =>
      cases granted <;> cases fix <;>
        simp [handle, loadInitialPosition, List.getElem?_cons] at hi <;>
        split_ifs at hi <;> simp_all
    | devsChanged =>
      simp [handle, subscribeEffect, List.getElem?_cons] at hi
    | newDev dev =>
      simp [handle, onNewDev, List.getElem?_cons] at hi
    | regionChangeComplete region =>
      simp [handle, handleRegionChanged, List.getElem?_cons] at hi
    | changeText text =>
      simp [handle, onChangeText, List.getElem?_cons] at hi
    | pressLoad =>
      simp only [handle] at hi ⊢
      cases hregion : s2.currentRegion with
      | none =>
        rw [loadDevs_of_null api2 s2 hregion] at hi
        simp at hi
      | some region =>
        cases hget : api2.get "/search"
            { latitude := region.latitude, longitude := region.longitude,
              techs := s2.techs } with
        | error reason =>
          rw [loadDevs_of_rejected api2 s2 region reason hregion hget] at hi
          simp [List.getElem?_cons] at hi
        | ok response =>
          rw [loadDevs_of_resolved api2 s2 region response hregion hget] at hi ⊢
          match i with
          | 0 => simp at hi
          | 1 => simp at hi
          | 2 => exact ⟨_, _, _, rfl⟩
          | 3 => simp at hi
          | n + 4 => simp at hi

/-- C4: the callback registered by the render whose list is `devs` sets the list to `devs`
followed by the pushed record: one entry more, every prior entry at its position, the pushed
record last; the handler hands exactly that list to `setDevs`. -/
theorem newDevCallback_appends (s : State) (dev : Dev) :
    (onNewDev s dev).state.devs = s.devs ++ [dev] ∧
    (onNewDev s dev).effects = [.setDevs (s.devs ++ [dev])] ∧
    (newDevCallback s.devs dev).length = s.devs.length + 1 ∧
    (∀ i, i < s.devs.length → (newDevCallback s.devs dev)[i]? = s.devs[i]?) ∧
    (newDevCallback s.devs dev)[s.devs.length]? = some dev ∧
    (newDevCallback s.devs dev).getLast? = some dev := by
  refine ⟨rfl, rfl, ?_, ?_, ?_, ?_⟩
  · simp [newDevCallback]
  · intro i hi
    simp [newDevCallback, List.getElem?_append_left hi]
  · simp [newDevCallback]
  · simp [newDevCallback]

/-- C5: after a `loadDevs` call whose search resolves with `response`, the list is exactly
`response.data.devs`: an entry of the prior list is in it only if the response holds it, and
the region and the filter text are as before. -/
theorem loadDevs_replaces_devs (api : Api) (s : State) (region : Region) (response : Response)
    (hregion : s.currentRegion = some region)
    (hresolved : api.get "/search"
      { latitude := region.latitude, longitude := region.longitude, techs := s.techs }
        = .ok response) :
    (loadDevs api s).state.devs = response.data.devs ∧
    (∀ dev ∈ s.devs, dev ∈ (loadDevs api s).state.devs → dev ∈ response.data.devs) ∧
    (loadDevs api s).state.currentRegion = s.currentRegion ∧
    (loadDevs api s).state.techs = s.techs := by
  rw [loadDevs_of_resolved api s region response hregion hresolved]
  exact ⟨rfl, fun _ _ h => h, rfl, rfl⟩

/-- C7: when the search of `loadDevs` is rejected, the call ends with that rejection, the
three state cells are untouched, and the trace holds no `setDevs`, no `disconnect` and no
`connect`: the request is the only call made. -/
theorem loadDevs_rejected_no_effect (api : Api) (s : State) (region : Region) (reason : String)
    (hregion : s.currentRegion = some region)
    (hrejected : api.get "/search"
      { latitude := region.latitude, longitude := region.longitude, techs := s.techs }
        = .error reason) :
    (loadDevs api s).failure = some (.rejected reason) ∧
    (loadDevs api s).state = s ∧
    (∀ devs, Effect.setDevs devs ∉ (loadDevs api s).effects) ∧
    Effect.disconnect ∉ (loadDevs api s).effects ∧
    (∀ latitude longitude techs,
      Effect.connect latitude longitude techs ∉ (loadDevs api s).effects) ∧
    (loadDevs api s).effects.length = 1 := by
  rw [loadDevs_of_rejected api s region reason hregion hrejected]
  simp

/-! ## Render -/

/-- C8: when `Main` renders, there is one marker per dev, in list order: the marker at
position `i` has the key, the coordinate (entry 0 of `coordinates` as longitude, entry 1 as
latitude) and the callout texts (name, bio, techs joined with a comma and a blank) of the dev
at position `i`. -/
theorem Main_markers (s : State) (region : Region) (hregion : s.currentRegion = some region) :
    ∃ view, Main s = some view ∧
      view.markers.length = s.devs.length ∧
      ∀ (i : Nat) (dev : Dev), s.devs[i]? = some dev →
        ∃ marker : MarkerView, view.markers[i]? = some marker ∧
          marker.key = dev._id ∧
          marker.coordinate.longitude = dev.location.coordinates[0]? ∧
          marker.coordinate.latitude = dev.location.coordinates[1]? ∧
          marker.callout.devName = dev.name ∧
          marker.callout.devBio = dev.bio ∧
          marker.callout.devTechs = String.intercalate ", " dev.techs := by
  refine ⟨⟨region, s.devs.map renderMarker, s.techs⟩, by simp only [Main, hregion],
    by simp, ?_⟩
  intro i dev hdev
  exact ⟨renderMarker dev, by simp [hdev], rfl, rfl, rfl, rfl, rfl, rfl⟩

/-- C9: with the permission granted and a position fix, `loadInitialPosition` sets the
region to the latitude and longitude of the fix with both deltas `0.04`, which are not zero;
with the permission refused, a null region stays null, `getCurrentPositionAsync` is not
called, and `Main` returns null. -/
theorem loadInitialPosition_region (s : State) (position : Position)
    (devs : List Dev) (techs : String) (fix : Except String Position) :
    (loadInitialPosition s true (.ok position)).state.currentRegion =
      some
        { latitude := position.coords.latitude
          longitude := position.coords.longitude
          latitudeDelta := 4 / 100
          longitudeDelta := 4 / 100 } ∧
    (∀ region, (loadInitialPosition s true (.ok position)).state.currentRegion = some region →
      region.latitudeDelta = region.longitudeDelta ∧
      region.latitudeDelta ≠ 0 ∧ region.longitudeDelta ≠ 0) ∧
    (loadInitialPosition { devs := devs, currentRegion := none, techs := techs }
      false fix).state.currentRegion = none ∧
    (∀ accuracy, Effect.getCurrentPositionAsync accuracy ∉
      (loadInitialPosition { devs := devs, currentRegion := none, techs := techs }
        false fix).effects) ∧
    Main (loadInitialPosition { devs := devs, currentRegion := none, techs := techs }
      false fix).state = none := by
  refine ⟨rfl, ?_, rfl, ?_, rfl⟩
  · intro region hset
    simp only [loadInitialPosition, if_true, Option.some.injEq] at hset
    subst hset
    norm_num
  · intro accuracy
    simp [loadInitialPosition]

/-! ## The accumulated list -/

theorem loadDevs_devs_cases (api : Api) (s : State) :
    (loadDevs api s).state.devs = s.devs ∨
      ∃ params response, api.get "/search" params = .ok response ∧
        (loadDevs api s).state.devs = response.data.devs := by
  cases hregion : s.currentRegion with
  | none => left; rw [loadDevs_of_null _ s hregion]
  | some region =>
    cases hget : api.get "/search"
        { latitude := region.latitude, longitude := region.longitude, techs := s.techs } with
    | error reason => left; rw [loadDevs_of_rejected api s region reason hregion hget]
    | ok response =>
      right
      exact ⟨_, response, hget, by rw [loadDevs_of_resolved api s region response hregion hget]⟩

theorem ids_newDevCallback_nodup (closedOver : List Dev) (dev : Dev)
    (hclosed : (ids closedOver).Nodup) (hnew : dev._id ∉ ids closedOver) :
    (ids (newDevCallback closedOver dev)).Nodup := by
  simp only [newDevCallback, ids, List.map_append, List.map_cons, List.map_nil]
  simp only [ids] at hclosed hnew
  rw [List.nodup_append]
  refine ⟨hclosed, List.nodup_singleton _, ?_⟩
  intro a ha hb
  rw [List.mem_singleton] at hb
  exact hnew (hb ▸ ha)

/-- The list on screen and every list closed over by a callback are free of duplicate
identifiers, and stay so along a run with clean searches and fresh pushes. -/
theorem feed_ids_nodup (run : List Input) :
    ∀ screen : Screen, (ids screen.state.devs).Nodup →
      (∀ closedOver ∈ screen.callbacks, (ids closedOver).Nodup) →
      CleanSearches run → FreshPushes screen run →
      (ids (feed screen run).state.devs).Nodup ∧
        ∀ closedOver ∈ (feed screen run).callbacks, (ids closedOver).Nodup := by
  induction run with
  | nil => intro screen hdevs hcallbacks _ _; exact ⟨hdevs, hcallbacks⟩
  | cons input rest ih =>
    intro screen hdevs hcallbacks hclean hfresh
    have hrest : CleanSearches rest :=
      fun api hmem => hclean api (List.mem_cons_of_mem _ hmem)
    cases input with
    | mounted granted fix =>
      refine ih _ ?_ hcallbacks hrest hfresh
      cases granted <;> cases fix <;> simpa [Screen.step, loadInitialPosition] using hdevs
    | regionChangeComplete region =>
      exact ih _ (by simpa [Screen.step, handleRegionChanged] using hdevs) hcallbacks hrest hfresh
    | changeText text =>
      exact ih _ (by simpa [Screen.step, onChangeText] using hdevs) hcallbacks hrest hfresh
    | pressLoad api =>
      refine ih _ ?_ hcallbacks hrest hfresh
      show (ids (loadDevs api screen.state).state.devs).Nodup
      rcases loadDevs_devs_cases api screen.state with h | ⟨params, response, hget, h⟩
      · rw [h]; exact hdevs
      · rw [h]; exact hclean api (List.mem_cons_self _ _) _ params response hget
    | subscribe =>
      refine ih _ hdevs ?_ hrest hfresh
      intro closedOver hmem
      simp only [Screen.step, List.mem_append, List.mem_singleton] at hmem
      rcases hmem with hmem | hmem
      · exact hcallbacks _ hmem
      · rw [hmem]; exact hdevs
    | push k dev =>
      have hnew : FreshFor screen.callbacks k dev := hfresh.1
      refine ih _ ?_ ?_ hrest hfresh.2
      · cases hk : screen.callbacks[k]? with
        | none => simpa [Screen.step, hk] using hdevs
        | some closedOver =>
          simp only [FreshFor, hk] at hnew
          simp only [Screen.step, hk]
          exact ids_newDevCallback_nodup closedOver dev
            (hcallbacks _ (List.getElem?_mem hk)) hnew
      · cases hk : screen.callbacks[k]? with
        | none => simpa [Screen.step, hk] using hcallbacks
        | some closedOver => simpa [Screen.step, hk] using hcallbacks

/-- A callback works on the list it closed over, not on the list on screen: two records
pushed to the callback of the first render, with no new subscription in between, leave the
second record alone on screen. -/
theorem feed_stale_callback :
    (feed (Screen.fresh (some sampleRegion) "React")
      [.subscribe, .push 0 sampleDev, .push 0 otherDev]).state.devs = [otherDev] := rfl

/-- A record pushed to a callback that closed over a list holding it is appended all the
same, also when the list on screen no longer holds it: after a search that finds a dev
and a search that finds nothing, with no new subscription in between, the push of that dev
to the older callback puts it twice on screen; such a push is not a fresh one. -/
theorem feed_stale_duplicate :
    (feed (Screen.fresh (some sampleRegion) "React")
      [.subscribe, .pressLoad (answering sampleResponse), .subscribe,
        .pressLoad (answering { data := { devs := [] } }),
        .push 1 sampleDev]).state.devs = [sampleDev, sampleDev] ∧
    ¬ FreshPushes (Screen.fresh (some sampleRegion) "React")
      [.subscribe, .pressLoad (answering sampleResponse), .subscribe,
        .pressLoad (answering { data := { devs := [] } }), .push 1 sampleDev] := by
  refine ⟨rfl, fun hfresh => ?_⟩
  have hnew : sampleDev._id ∉ ids [sampleDev] := hfresh.1
  simp [ids] at hnew

/-- C3, as stated, fails: from the empty list, a search response holding one dev, a new
subscription with the found list, and a push of that same dev leave the dev twice in the
list, so two entries (and two marker keys) share one `_id`. -/
theorem feed_pushed_twice :
    (ids sampleResponse.data.devs).Nodup ∧
    (Screen.fresh none "").state.devs = [] ∧
    (feed (Screen.fresh none "") (searchThenPush sampleDev)).state.devs
      = [sampleDev, sampleDev] ∧
    ¬ (ids (feed (Screen.fresh none "") (searchThenPush sampleDev)).state.devs).Nodup ∧
    (Main (feed (Screen.fresh none "") (searchThenPush sampleDev)).state).map
      (fun view => view.markers.map fun marker => marker.key) = some ["a1", "a1"] := by
  have hfeed : (feed (Screen.fresh none "") (searchThenPush sampleDev)).state.devs
      = [sampleDev, sampleDev] := rfl
  refine ⟨by simp [ids, sampleResponse], rfl, hfeed, ?_, rfl⟩
  rw [hfeed]
  simp [ids]

/-- C3, amended: the callback appends the pushed record to the list of the render that
registered it, without looking at identifiers, so the list stays free of duplicate `_id`s
exactly as far as its inputs let it: from the empty list, after any run of searches (each
response free of duplicate identifiers), subscriptions, region and text changes and pushed
records in which every pushed record has an `_id` that no entry of the list closed over by
the callback receiving it has, no two entries of the list have the same `_id`. -/
theorem feed_ids_nodup_of_fresh (region : Option Region) (techs : String) (run : List Input)
    (hclean : CleanSearches run)
    (hfresh : FreshPushes (Screen.fresh region techs) run) :
    (ids (feed (Screen.fresh region techs) run).state.devs).Nodup :=
  (feed_ids_nodup run (Screen.fresh region techs) List.nodup_nil
    (fun _ hmem => by simp [Screen.fresh] at hmem) hclean hfresh).1

/-! ## The search request -/

theorem requests_loadDevs (api : Api) (s : State) (region : Region)
    (hregion : s.currentRegion = some region) :
    requests (loadDevs api s).effects =
      [("/search",
        { latitude := region.latitude, longitude := region.longitude, techs := s.techs })] := by
  cases hget : api.get "/search"
      { latitude := region.latitude, longitude := region.longitude, techs := s.techs } with
  | error reason =>
    rw [loadDevs_of_rejected api s region reason hregion hget]
    rfl
  | ok response =>
    rw [loadDevs_of_resolved api s region response hregion hget]
    rfl

/-- C6, as stated, fails: two current regions with the same centre and different extents
(deltas `0.04` and `0.08`) make `loadDevs` send the same request. -/
theorem loadDevs_request_ignores_extent :
    sampleState.currentRegion = some sampleRegion ∧
    wideState.currentRegion = some wideRegion ∧
    sampleRegion.latitudeDelta ≠ wideRegion.latitudeDelta ∧
    sampleRegion.longitudeDelta ≠ wideRegion.longitudeDelta ∧
    requests (loadDevs offline sampleState).effects =
      requests (loadDevs offline wideState).effects := by
  refine ⟨rfl, rfl, ?_, ?_, ?_⟩
  · simp only [sampleRegion, wideRegion]; norm_num
  · simp only [sampleRegion, wideRegion]; norm_num
  · rw [requests_loadDevs offline sampleState sampleRegion rfl,
      requests_loadDevs offline wideState wideRegion rfl]
    rfl

/-- C6, amended: the request of `loadDevs` is one `GET /search` whose params are the centre
of the current region (latitude, longitude) and the filter text, and nothing of the extent:
two calls send the same request exactly when their regions have the same latitude and the
same longitude and their filter texts are equal. -/
theorem loadDevs_request_centre_and_techs (api1 api2 : Api) (s1 s2 : State)
    (region1 region2 : Region)
    (hregion1 : s1.currentRegion = some region1) (hregion2 : s2.currentRegion = some region2) :
    requests (loadDevs api1 s1).effects =
        [("/search",
          { latitude := region1.latitude, longitude := region1.longitude,
            techs := s1.techs })] ∧
    (requests (loadDevs api1 s1).effects = requests (loadDevs api2 s2).effects ↔
      region1.latitude = region2.latitude ∧ region1.longitude = region2.longitude ∧
        s1.techs = s2.techs) := by
  rw [requests_loadDevs api1 s1 region1 hregion1, requests_loadDevs api2 s2 region2 hregion2]
  simp

/-! ## The null-region guard -/

/-- C10: `Main` returns null exactly when the region is null. Hence in a reachable state
whose render carries the load button, the region is some `region`; `loadDevs` of that render
does not throw on its destructuring whatever the server answers and searches with the
latitude and longitude of `region`; `setupWebsocket` of that render does not throw and
connects with them; and no enabled event makes the region null again. -/
theorem loadDevs_region_nonnull (s : State) (hreach : Reachable s)
    (hpress : Event.pressLoad.enabled s = true) :
    (∀ t : State, Main t = none ↔ t.currentRegion = none) ∧
    ∃ region, s.currentRegion = some region ∧
      (∀ api : Api, (loadDevs api s).failure ≠ some .typeError ∧
        requests (loadDevs api s).effects =
          [("/search",
            { latitude := region.latitude, longitude := region.longitude,
              techs := s.techs })]) ∧
      setupWebsocket s =
        { state := s
          effects := [.disconnect, .connect region.latitude region.longitude s.techs]
          failure := none } ∧
      ∀ (api : Api) (e : Event), e.enabled s = true →
        Reachable (handle api s e).state ∧ (handle api s e).state.currentRegion ≠ none := by
  have hguard : ∀ t : State, Main t = none ↔ t.currentRegion = none := by
    intro t
    cases ht : t.currentRegion <;> simp [Main, ht]
  refine ⟨hguard, ?_⟩
  cases hregion : s.currentRegion with
  | none =>
    have hnone : Main s = none := (hguard s).2 hregion
    simp [Event.enabled, hnone] at hpress
  | some region =>
    refine ⟨region, rfl, ?_, by simp [setupWebsocket, hregion], ?_⟩
    · intro api
      refine ⟨?_, requests_loadDevs api s region hregion⟩
      cases hget : api.get "/search"
          { latitude := region.latitude, longitude := region.longitude, techs := s.techs } with
      | error reason => simp [loadDevs_of_rejected api s region reason hregion hget]
      | ok response => simp [loadDevs_of_resolved api s region response hregion hget]
    · intro api e he
      refine ⟨Reachable.step api s e hreach he, ?_⟩
      cases e with
      | mounted granted fix =>
        cases granted <;> cases fix <;> simp [handle, loadInitialPosition, hregion]
      | devsChanged => simp [handle, subscribeEffect, hregion]
      | newDev dev => simp [handle, onNewDev, hregion]
      | regionChangeComplete r => simp [handle, handleRegionChanged]
      | changeText text => simp [handle, onChangeText, hregion]
      | pressLoad =>
        simp only [handle]
        cases hget : api.get "/search"
            { latitude := region.latitude, longitude := region.longitude, techs := s.techs } with
        | error reason => simp [loadDevs_of_rejected api s region reason hregion hget, hregion]
        | ok response => simp [loadDevs_of_resolved api s region response hregion hget, hregion]

/-! ## Instances on the sample data -/

/-- C1 on the sample screen, with a server that answers with one dev. -/
theorem loadDevs_connects_to_searched_witness :
    (loadDevs (answering sampleResponse) sampleState).failure = none ∧
    ∃ region params,
      sampleState.currentRegion = some region ∧
      params = { latitude := region.latitude, longitude := region.longitude,
                 techs := sampleState.techs } ∧
      requests (loadDevs (answering sampleResponse) sampleState).effects
        = [("/search", params)] ∧
      Effect.connect params.latitude params.longitude params.techs ∈
        (loadDevs (answering sampleResponse) sampleState).effects ∧
      ∀ latitude longitude techs,
        Effect.connect latitude longitude techs ∈
          (loadDevs (answering sampleResponse) sampleState).effects →
          latitude = params.latitude ∧ longitude = params.longitude ∧ techs = params.techs :=
  ⟨rfl, loadDevs_connects_to_searched (answering sampleResponse) sampleState rfl⟩

/-- C2 on the zoomed-out sample screen. -/
theorem loadDevs_disconnect_then_connect_witness :
    (loadDevs (answering sampleResponse) wideState).failure = none ∧
    (∃ params devs latitude longitude techs,
      (loadDevs (answering sampleResponse) wideState).effects =
        [.get "/search" params, .setDevs devs, .disconnect,
          .connect latitude longitude techs]) ∧
    ∀ (api2 : Api) (s2 : State) (e : Event), DisconnectThenConnect (handle api2 s2 e).effects :=
  ⟨rfl, loadDevs_disconnect_then_connect (answering sampleResponse) wideState rfl⟩

/-- C3 (amended) on a search that finds one dev followed by the push of a dev with a new
identifier to the callback that closed over the found list. -/
theorem feed_ids_nodup_of_fresh_witness :
    CleanSearches (searchThenPush otherDev) ∧
    FreshPushes (Screen.fresh none "") (searchThenPush otherDev) ∧
    (feed (Screen.fresh none "") (searchThenPush otherDev)).state.devs
      = [sampleDev, otherDev] ∧
    (ids (feed (Screen.fresh none "") (searchThenPush otherDev)).state.devs).Nodup :=
  have hclean : CleanSearches (searchThenPush otherDev) := by
    intro api hmem url params response hget
    have hapi : api = answering sampleResponse := by simpa [searchThenPush] using hmem
    subst hapi
    have hresponse : sampleResponse = response := by simpa [answering] using hget
    subst hresponse
    simp [ids, sampleResponse]
  have hfresh : FreshPushes (Screen.fresh none "") (searchThenPush otherDev) := by
    refine ⟨?_, trivial⟩
    show otherDev._id ∉ ids [sampleDev]
    simp [ids, otherDev, sampleDev]
  ⟨hclean, hfresh, rfl, feed_ids_nodup_of_fresh none "" _ hclean hfresh⟩

/-- C5 on a list holding a pushed dev that the next search response does not hold. -/
theorem loadDevs_replaces_devs_witness :
    { devs := [otherDev], currentRegion := some sampleRegion, techs := "React" : State
      }.currentRegion = some sampleRegion ∧
    (loadDevs (answering sampleResponse)
      { devs := [otherDev], currentRegion := some sampleRegion, techs := "React" }).state.devs
        = [sampleDev] :=
  ⟨rfl, (loadDevs_replaces_devs (answering sampleResponse)
    { devs := [otherDev], currentRegion := some sampleRegion, techs := "React" }
    sampleRegion sampleResponse rfl rfl).1⟩

/-- C6 (amended) on two screens with one centre and two extents. -/
theorem loadDevs_request_centre_and_techs_witness :
    sampleState.currentRegion = some sampleRegion ∧
    wideState.currentRegion = some wideRegion ∧
    (requests (loadDevs offline sampleState).effects =
        requests (loadDevs (answering sampleResponse) wideState).effects ↔
      sampleRegion.latitude = wideRegion.latitude ∧
        sampleRegion.longitude = wideRegion.longitude ∧ sampleState.techs = wideState.techs) :=
  ⟨rfl, rfl, (loadDevs_request_centre_and_techs offline (answering sampleResponse)
    sampleState wideState sampleRegion wideRegion rfl rfl).2⟩

/-- C7 on the sample screen with a server that rejects. -/
theorem loadDevs_rejected_no_effect_witness :
    offline.get "/search"
      { latitude := sampleRegion.latitude, longitude := sampleRegion.longitude,
        techs := sampleState.techs } = .error "Network Error" ∧
    (loadDevs offline sampleState).failure = some (.rejected "Network Error") ∧
    (loadDevs offline sampleState).state = sampleState ∧
    (∀ devs, Effect.setDevs devs ∉ (loadDevs offline sampleState).effects) ∧
    Effect.disconnect ∉ (loadDevs offline sampleState).effects ∧
    (∀ latitude longitude techs,
      Effect.connect latitude longitude techs ∉ (loadDevs offline sampleState).effects) ∧
    (loadDevs offline sampleState).effects.length = 1 :=
  ⟨rfl, loadDevs_rejected_no_effect offline sampleState sampleRegion "Network Error" rfl rfl⟩

/-- C8 on a list of two devs. -/
theorem Main_markers_witness :
    ∃ view,
      Main { devs := [sampleDev, otherDev], currentRegion := some sampleRegion, techs := "" }
        = some view ∧
      view.markers.length = 2 ∧
      ∀ (i : Nat) (dev : Dev), [sampleDev, otherDev][i]? = some dev →
        ∃ marker : MarkerView, view.markers[i]? = some marker ∧
          marker.key = dev._id ∧
          marker.coordinate.longitude = dev.location.coordinates[0]? ∧
          marker.coordinate.latitude = dev.location.coordinates[1]? ∧
          marker.callout.devName = dev.name ∧
          marker.callout.devBio = dev.bio ∧
          marker.callout.devTechs = String.intercalate ", " dev.techs :=
  Main_markers { devs := [sampleDev, otherDev], currentRegion := some sampleRegion, techs := "" }
    sampleRegion rfl

/-- C10 on the state reached from the first render by a granted permission. -/
theorem loadDevs_region_nonnull_witness :
    Reachable mountedState ∧ Event.pressLoad.enabled mountedState = true ∧
    ∃ region, mountedState.currentRegion = some region ∧
      (∀ api : Api, (loadDevs api mountedState).failure ≠ some .typeError ∧
        requests (loadDevs api mountedState).effects =
          [("/search",
            { latitude := region.latitude, longitude := region.longitude,
              techs := mountedState.techs })]) ∧
      setupWebsocket mountedState =
        { state := mountedState
          effects := [.disconnect, .connect region.latitude region.longitude mountedState.techs]
          failure := none } ∧
      ∀ (api : Api) (e : Event), e.enabled mountedState = true →
        Reachable (handle api mountedState e).state ∧
          (handle api mountedState e).state.currentRegion ≠ none :=
  have hreach : Reachable mountedState :=
    Reachable.step offline State.init
      (.mounted true (.ok { coords := { latitude := 1, longitude := 2 } })) Reachable.init rfl
  ⟨hreach, rfl, (loadDevs_region_nonnull mountedState hreach rfl).2⟩

end DevRadar
